import Mathlib

/-!
Shallow embedding of the `cohere-chatbot-tutorial` core
(`src/chatbot.ts`, `src/templates.ts`).

Modelling conventions:
* TypeScript optional fields (`field?: T`) become `Option T`; an absent
  key is `none`.
* JavaScript numbers used as temperatures become `ℚ` (the claims only
  exercise values at which float and rational comparison agree).
* `Date` timestamps are dropped: the source never reads them and the
  spec marks them informational only.
* The Cohere client is modelled as the outcome of its two calls: the
  non-streaming call either throws or yields the extracted
  `message.content[0].text` option, the streaming call either throws or
  yields the finite ordered list of chunks.
* `async`/`throw` becomes explicit `Except` passing; the mutable class
  instance becomes explicit state passing on `BotState`.
-/

/-- Message role, the closed variant over `"user" | "assistant" | "system"`. -/
inductive Role where
  | user
  | assistant
  | system
deriving DecidableEq, Repr

/-- `ChatMessage` from `chatbot.ts` (timestamp omitted, see module comment). -/
structure ChatMessage where
  role : Role
  content : String
deriving DecidableEq, Repr

/-- `ChatbotConfig` from `chatbot.ts`: every field optional. -/
structure ChatbotConfig where
  model : Option String := none
  temperature : Option ℚ := none
  maxTokens : Option Nat := none
  preamble : Option String := none
  enableStreaming : Option Bool := none
  activeTemplate : Option String := none
deriving DecidableEq, Repr

/-- `PromptTemplate` from `templates.ts`. -/
structure PromptTemplate where
  name : String
  description : String
  template : String
deriving DecidableEq, Repr

/-- The fixed template registry `promptTemplates` from `templates.ts`. -/
def promptTemplates : List PromptTemplate :=
  [ { name := "general",
      description := "General conversation and questions",
      template := "You are a helpful and friendly AI assistant. Please answer the user's question clearly and helpfully.\n\nUser question: {userInput}\n\nPlease provide a clear and helpful response:" },
    { name := "code",
      description := "Programming and coding help",
      template := "You are an expert programmer and coding mentor. Help the user with their programming question or problem.\n\nProgramming question: {userInput}\n\nPlease provide:\n1. A clear explanation\n2. Code examples if needed\n3. Best practices or tips\n\nResponse:" },
    { name := "creative",
      description := "Creative writing and storytelling",
      template := "You are a creative writing assistant. Help the user with creative tasks like stories, poems, or creative ideas.\n\nCreative request: {userInput}\n\nPlease be imaginative, engaging, and help bring their creative vision to life:" },
    { name := "qa",
      description := "Structured question and answer",
      template := "You are a knowledgeable expert. Answer the user's question with accurate, well-structured information.\n\nQuestion: {userInput}\n\nPlease provide:\n- A direct answer\n- Supporting details\n- Relevant context if helpful\n\nAnswer:" } ]

/-- `getTemplate` from `templates.ts`: first registry entry with the given name. -/
def getTemplate (name : String) : Option PromptTemplate :=
  promptTemplates.find? (fun t => t.name == name)

/-- `matchesAt needle hay`: `needle` is an initial segment of `hay`. -/
def matchesAt : List Char → List Char → Bool
  | [], _ => true
  | _ :: _, [] => false
  | a :: as, b :: bs => a == b && matchesAt as bs

/-- `occursIn needle hay`: `needle` occurs as a contiguous segment of `hay`. -/
def occursIn (needle : List Char) : List Char → Bool
  | [] => matchesAt needle []
  | c :: cs => matchesAt needle (c :: cs) || occursIn needle cs

/-- `findFirst needle hay`: index of the first occurrence of `needle`
in `hay`, as JavaScript `String.prototype.indexOf` finds it. -/
def findFirst (needle : List Char) : List Char → Option Nat
  | [] => if matchesAt needle [] then some 0 else none
  | c :: cs =>
    if matchesAt needle (c :: cs) then some 0
    else
      match findFirst needle cs with
      | some i => some (i + 1)
      | none => none

/-- The dollar character starting a replacement pattern. -/
def dollarChar : Char := '$'

/-- The ampersand of the whole-match pattern. -/
def ampChar : Char := '&'

/-- The backquote (code point 96) of the preceding-portion pattern. -/
def backquoteChar : Char := Char.ofNat 96

/-- The single quote (code point 39) of the following-portion pattern. -/
def quoteChar : Char := Char.ofNat 39

/-- ECMAScript `GetSubstitution` for a string search value (no capture
groups): rewrites the replacement string, interpreting the patterns
`$$` (a dollar sign), `$&` (the matched text), a dollar sign followed by
a backquote (the portion before the match) and by a single quote (the
portion after the match); a dollar sign followed by anything else is
literal. -/
def getSubstitution (matched before after : List Char) : List Char → List Char
  | [] => []
  | c :: rest =>
    if c = dollarChar then
      match rest with
      | [] => [c]
      | d :: rest2 =>
        if d = dollarChar then dollarChar :: getSubstitution matched before after rest2
        else if d = ampChar then matched ++ getSubstitution matched before after rest2
        else if d = backquoteChar then before ++ getSubstitution matched before after rest2
        else if d = quoteChar then after ++ getSubstitution matched before after rest2
        else c :: getSubstitution matched before after (d :: rest2)
    else c :: getSubstitution matched before after rest

/-- JavaScript `String.prototype.replace` with a string pattern:
replaces only the first occurrence of `needle` by the replacement
rewritten through `GetSubstitution`, or leaves the list unchanged when
`needle` does not occur. -/
def jsReplaceFirst (needle repl hay : List Char) : List Char :=
  match findFirst needle hay with
  | none => hay
  | some i =>
    hay.take i ++
      getSubstitution needle (hay.take i) (hay.drop (i + needle.length)) repl ++
      hay.drop (i + needle.length)

/-- The substitution marker `"{userInput}"` as a character list. -/
def markerList : List Char := "{userInput}".toList

/-- `applyTemplate` from `templates.ts`:
`template.template.replace("{userInput}", userInput)`. -/
def applyTemplate (t : PromptTemplate) (userInput : String) : String :=
  String.mk (jsReplaceFirst markerList userInput.toList t.template.toList)

/-- One chatbot session: the `config` field and mutable
`conversationHistory` array of class `CohereChatbot`. -/
structure BotState where
  config : ChatbotConfig
  conversationHistory : List ChatMessage
deriving DecidableEq, Repr

/-- JavaScript object spread on one optional field: a key present in the
override wins, an absent key keeps the base value. -/
def spreadField {α : Type} (base override : Option α) : Option α :=
  match override with
  | some v => some v
  | none => base

/-- The object spread `{ ...base, ...override }` on `ChatbotConfig`. -/
def mergeConfig (base override : ChatbotConfig) : ChatbotConfig where
  model := spreadField base.model override.model
  temperature := spreadField base.temperature override.temperature
  maxTokens := spreadField base.maxTokens override.maxTokens
  preamble := spreadField base.preamble override.preamble
  enableStreaming := spreadField base.enableStreaming override.enableStreaming
  activeTemplate := spreadField base.activeTemplate override.activeTemplate

/-- The default-field object literal the constructor spreads the caller
config over. -/
def constructorBase : ChatbotConfig :=
  { model := some "command-r-plus",
    temperature := some (3/10),
    maxTokens := some 500,
    enableStreaming := some false }

/-- The `CohereChatbot` constructor (API key dropped: it only feeds the
external client): merge defaults with the caller config, then seed the
history with one system message when a preamble is configured. -/
def mkChatbot (config : ChatbotConfig) : BotState :=
  let cfg := mergeConfig constructorBase config
  { config := cfg,
    conversationHistory :=
      match cfg.preamble with
      | some p => [{ role := Role.system, content := p }]
      | none => [] }

/-- `ChatbotPreset` from `chatbot.ts`. -/
inductive ChatbotPreset where
  | precise
  | balanced
  | creative
deriving DecidableEq, Repr

/-- The fixed `CHATBOT_PRESETS` catalog. -/
def CHATBOT_PRESETS : ChatbotPreset → ChatbotConfig
  | ChatbotPreset.precise =>
    { model := some "command-r-plus",
      temperature := some 0,
      maxTokens := some 500,
      preamble := some "You are a helpful and precise assistant. Provide accurate and factual responses.",
      enableStreaming := some false }
  | ChatbotPreset.balanced =>
    { model := some "command-r-plus",
      temperature := some (3/10),
      maxTokens := some 500,
      preamble := some "You are a helpful assistant. Be informative and conversational.",
      enableStreaming := some false }
  | ChatbotPreset.creative =>
    { model := some "command-r-plus",
      temperature := some 1,
      maxTokens := some 500,
      preamble := some "You are a creative and imaginative assistant. Feel free to be expressive and think outside the box.",
      enableStreaming := some false }

/-- `CohereChatbot.fromPreset` (API key dropped). -/
def fromPreset (preset : ChatbotPreset) : BotState :=
  mkChatbot (CHATBOT_PRESETS preset)

/-- JavaScript `x || d` on an optional number: `undefined` and the falsy
`0` both fall back to the default. -/
def jsOrNum (x : Option ℚ) (d : ℚ) : ℚ :=
  match x with
  | none => d
  | some v => if v = 0 then d else v

/-- Decimal rendering of a temperature as in the template literal
`custom (temperature: ...)`; renders integers and one-decimal values
the way JavaScript prints them (all temperatures in scope are such). -/
def jsNumToString (q : ℚ) : String :=
  if q.den = 1 then toString q.num
  else toString (q.num * 10 / (q.den : ℤ) / 10) ++ "." ++
    toString (q.num * 10 / (q.den : ℤ) % 10)

/-- `getPresetInfo` from `chatbot.ts`, including the
`this.config.temperature || 0.3` fallback. -/
def getPresetInfo (st : BotState) : String :=
  let temp := jsOrNum st.config.temperature (3/10)
  if temp = 0 then "precise (focused on accuracy)"
  else if temp ≤ 3/10 then "balanced (general conversation)"
  else if temp ≥ 1 then "creative (imaginative responses)"
  else "custom (temperature: " ++ jsNumToString temp ++ ")"

/-- One streaming chunk: its `type` tag and the
`delta?.message?.content?.text` option. -/
structure StreamChunk where
  type : String
  deltaText : Option String
deriving DecidableEq, Repr

/-- The external Cohere client, modelled by the outcome of its two calls
on the current turn: `chat` either throws or yields the extracted
optional response text, `chatStream` either throws or yields the finite
chunk sequence in arrival order. -/
structure CohereClient where
  chatText : Except Unit (Option String)
  chatStreamChunks : Except Unit (List StreamChunk)

/-- The generic error `sendMessage` re-throws on any dispatch failure. -/
def apiFailureMessage : String := "Failed to get response from Cohere API"

/-- The placeholder used when the non-streaming response has no text. -/
def noResponseMessage : String := "No response received"

/-- `this.conversationHistory.push(m)`. -/
def pushMessage (st : BotState) (m : ChatMessage) : BotState :=
  { st with conversationHistory := st.conversationHistory ++ [m] }

/-- JavaScript `x || d` on an optional string: `undefined` and the
falsy empty string both fall back to the default. -/
def jsOrString (x : Option String) (d : String) : String :=
  match x with
  | none => d
  | some s => if s = "" then d else s

/-- `sendRegularMessage`: single call; a missing or empty (falsy) text
falls back to the placeholder; the assistant reply is appended to
history. -/
def sendRegularMessage (client : CohereClient) (st : BotState) :
    Except Unit (String × BotState) :=
  match client.chatText with
  | Except.error e => Except.error e
  | Except.ok respText =>
    let assistantMessage := jsOrString respText noResponseMessage
    Except.ok (assistantMessage,
      pushMessage st { role := Role.assistant, content := assistantMessage })

/-- The `fullResponse` accumulation loop of `sendStreamingMessage`:
append the delta text of every `content-delta` chunk in arrival order. -/
def streamConcat (chunks : List StreamChunk) : String :=
  chunks.foldl
    (fun acc c =>
      if c.type == "content-delta" then acc ++ c.deltaText.getD "" else acc)
    ""

/-- `sendStreamingMessage`: consume the stream, concatenate the
`content-delta` texts, append the result as the assistant reply. -/
def sendStreamingMessage (client : CohereClient) (st : BotState) :
    Except Unit (String × BotState) :=
  match client.chatStreamChunks with
  | Except.error e => Except.error e
  | Except.ok chunks =>
    let fullResponse := streamConcat chunks
    Except.ok (fullResponse,
      pushMessage st { role := Role.assistant, content := fullResponse })

/-- `sendMessage`: push the user message, dispatch along the path chosen
by `enableStreaming`, and on any failure re-throw the one generic error
while keeping the user message in history. -/
def sendMessage (client : CohereClient) (st : BotState) (message : String) :
    Except String String × BotState :=
  let st1 := pushMessage st { role := Role.user, content := message }
  let inner :=
    if st1.config.enableStreaming.getD false then
      sendStreamingMessage client st1
    else
      sendRegularMessage client st1
  match inner with
  | Except.ok (text, st2) => (Except.ok text, st2)
  | Except.error _ => (Except.error apiFailureMessage, st1)

/-- `formatMessagesForAPI` output entries: role restricted in intent to
user/assistant, content text. -/
structure ApiMessage where
  role : Role
  content : String
deriving DecidableEq, Repr

/-- `formatMessagesForAPI`: filter out system messages, project to the
outbound shape, preserving order. -/
def formatMessagesForAPI (st : BotState) : List ApiMessage :=
  (st.conversationHistory.filter (fun m => m.role != Role.system)).map
    (fun m => { role := m.role, content := m.content })

/-- `getConversationHistory` (the spec's `snapshot`); copying is value
semantics here. -/
def getConversationHistory (st : BotState) : List ChatMessage :=
  st.conversationHistory

/-- `clearHistory`: empty the history, then re-seed the system message
when a preamble is configured. -/
def clearHistory (st : BotState) : BotState :=
  { st with
    conversationHistory :=
      match st.config.preamble with
      | some p => [{ role := Role.system, content := p }]
      | none => [] }

/-- `setPreamble`: record the preamble in config, drop every system
message from history and put exactly one new system message in front. -/
def setPreamble (st : BotState) (preamble : String) : BotState :=
  { config := { st.config with preamble := some preamble },
    conversationHistory :=
      { role := Role.system, content := preamble } ::
        st.conversationHistory.filter (fun m => m.role != Role.system) }

/-- `setTemplate`: activate the template only when the registry knows
the name; report the lookup outcome as the returned boolean. -/
def setTemplate (st : BotState) (templateName : String) : Bool × BotState :=
  match getTemplate templateName with
  | some _ =>
    (true, { st with config := { st.config with activeTemplate := some templateName } })
  | none => (false, st)

/-- `clearTemplate`. -/
def clearTemplate (st : BotState) : BotState :=
  { st with config := { st.config with activeTemplate := none } }

/-- `updateConfig`: `{ ...this.config, ...newConfig }`. -/
def updateConfig (st : BotState) (newConfig : ChatbotConfig) : BotState :=
  { st with config := mergeConfig st.config newConfig }

/-- `sendTemplatedMessage`: rewrite the input through the active
template when that template exists, silently keep the raw input
otherwise, then delegate to `sendMessage`. -/
def sendTemplatedMessage (client : CohereClient) (st : BotState)
    (userInput : String) : Except String String × BotState :=
  let finalMessage :=
    match st.config.activeTemplate with
    | some name =>
      match getTemplate name with
      | some t => applyTemplate t userInput
      | none => userInput
    | none => userInput
  sendMessage client st finalMessage

/-- States reachable through the public operations of the class. -/
inductive Reachable : BotState → Prop
  | init (config : ChatbotConfig) : Reachable (mkChatbot config)
  | send (client : CohereClient) (msg : String) {st : BotState} :
      Reachable st → Reachable (sendMessage client st msg).2
  | sendTemplated (client : CohereClient) (input : String) {st : BotState} :
      Reachable st → Reachable (sendTemplatedMessage client st input).2
  | setPre (text : String) {st : BotState} :
      Reachable st → Reachable (setPreamble st text)
  | clear {st : BotState} : Reachable st → Reachable (clearHistory st)
  | update (cfg : ChatbotConfig) {st : BotState} :
      Reachable st → Reachable (updateConfig st cfg)
  | setTmpl (name : String) {st : BotState} :
      Reachable st → Reachable (setTemplate st name).2
  | clearTmpl {st : BotState} : Reachable st → Reachable (clearTemplate st)

/-- The system-message invariant: every element after the head is
non-system (hence at most one system message, and only at the front). -/
def sysInv (h : List ChatMessage) : Prop :=
  ∀ m ∈ h.drop 1, m.role ≠ Role.system

/-- The field-wise override law of the spec's `merge`: a field set in the
override wins; a field unset in the override keeps the base value. -/
def OverrideLaw {α : Type} (base override result : Option α) : Prop :=
  (∀ v, override = some v → result = some v) ∧ (override = none → result = base)

/-- The delta texts of the `content-delta` chunks, in arrival order
(the spec-side description of what the streaming path concatenates). -/
def deltaTexts (chunks : List StreamChunk) : List String :=
  (chunks.filter (fun c => c.type == "content-delta")).map
    (fun c => c.deltaText.getD "")

/-- Concatenation of a list of strings in order with no separator. -/
def joinAll : List String → String
  | [] => ""
  | s :: rest => s ++ joinAll rest

/-- A client whose two calls both throw. -/
def clientFail : CohereClient :=
  { chatText := Except.error (), chatStreamChunks := Except.error () }

/-- The scenario-D fragment sequence `["Hel", "lo"]`. -/
def chunksHelLo : List StreamChunk :=
  [ { type := "content-delta", deltaText := some "Hel" },
    { type := "content-delta", deltaText := some "lo" } ]

/-- A client whose streaming call delivers the scenario-D fragments. -/
def clientHelLo : CohereClient :=
  { chatText := Except.ok none, chatStreamChunks := Except.ok chunksHelLo }

/-- A client whose non-streaming call succeeds with text "resp". -/
def clientOk : CohereClient :=
  { chatText := Except.ok (some "resp"), chatStreamChunks := Except.ok [] }

/-- A default-constructed session with streaming switched on via
`updateConfig`. -/
def stStream : BotState :=
  updateConfig (mkChatbot {}) { enableStreaming := some true }

/-- A default-constructed session whose active template name was set to
the unregistered name "bogus" through `updateConfig`. -/
def stBogus : BotState :=
  updateConfig (mkChatbot {}) { activeTemplate := some "bogus" }

theorem spreadField_law {α : Type} (b o : Option α) :
    OverrideLaw b o (spreadField b o) := by
  constructor
  · intro v hv
    simp [spreadField, hv]
  · intro h
    simp [spreadField, h]

/-- C10: a chatbot constructed with the empty config object has model
"command-r-plus", temperature 0.3, maxTokens 500, streaming off, no
preamble, no active template, and an empty conversation history. -/
theorem C10_default_construction :
    (mkChatbot {}).config.model = some "command-r-plus" ∧
    (mkChatbot {}).config.temperature = some (3/10) ∧
    (mkChatbot {}).config.maxTokens = some 500 ∧
    (mkChatbot {}).config.enableStreaming = some false ∧
    (mkChatbot {}).config.preamble = none ∧
    (mkChatbot {}).config.activeTemplate = none ∧
    (mkChatbot {}).conversationHistory = [] := by
  refine ⟨rfl, rfl, rfl, rfl, rfl, rfl, rfl⟩

/-- C1 (code bug): `getPresetInfo` does not classify temperature 0.0 as
"precise" — the `temperature || 0.3` fallback turns the falsy 0 into the
default 0.3, so the precise-preset session (temperature 0.0) is reported
as "balanced (general conversation)" and the `temp === 0.0` branch is
dead; the 0.6 banding from the claim does hold. -/
theorem C1_classify_zero_not_precise :
    (fromPreset ChatbotPreset.precise).config.temperature = some 0 ∧
    getPresetInfo (fromPreset ChatbotPreset.precise) =
      "balanced (general conversation)" ∧
    getPresetInfo (fromPreset ChatbotPreset.precise) ≠
      "precise (focused on accuracy)" ∧
    getPresetInfo (mkChatbot { temperature := some (3/5) }) =
      "custom (temperature: 0.6)" := by
  refine ⟨rfl, ?_, ?_, ?_⟩
  · norm_num [getPresetInfo, fromPreset, CHATBOT_PRESETS, mkChatbot,
      mergeConfig, constructorBase, spreadField, jsOrNum]
  · norm_num [getPresetInfo, fromPreset, CHATBOT_PRESETS, mkChatbot,
      mergeConfig, constructorBase, spreadField, jsOrNum]
    decide
  · norm_num [getPresetInfo, mkChatbot, mergeConfig, constructorBase,
      spreadField, jsOrNum, jsNumToString]
    rfl

/-- C3: the object-spread merge used by the constructor and by
`updateConfig` satisfies the field-wise override law on every
configuration field. -/
theorem C3_merge_override_law (base override : ChatbotConfig) :
    OverrideLaw base.model override.model (mergeConfig base override).model ∧
    OverrideLaw base.temperature override.temperature
      (mergeConfig base override).temperature ∧
    OverrideLaw base.maxTokens override.maxTokens
      (mergeConfig base override).maxTokens ∧
    OverrideLaw base.preamble override.preamble
      (mergeConfig base override).preamble ∧
    OverrideLaw base.enableStreaming override.enableStreaming
      (mergeConfig base override).enableStreaming ∧
    OverrideLaw base.activeTemplate override.activeTemplate
      (mergeConfig base override).activeTemplate ∧
    (∀ st : BotState, (updateConfig st override).config = mergeConfig st.config override) ∧
    (mkChatbot override).config = mergeConfig constructorBase override :=
  ⟨spreadField_law _ _, spreadField_law _ _, spreadField_law _ _,
    spreadField_law _ _, spreadField_law _ _, spreadField_law _ _,
    fun _ => rfl, rfl⟩

/-- Witness for C3 at concrete configurations: an override that sets
only the temperature wins on that field and keeps the base model. -/
theorem C3_merge_override_law_witness :
    (mergeConfig constructorBase { temperature := some (7/10) }).temperature =
      some (7/10) ∧
    (mergeConfig constructorBase { temperature := some (7/10) }).model =
      constructorBase.model :=
  ⟨(C3_merge_override_law constructorBase { temperature := some (7/10) }).2.1.1
      (7/10) rfl,
    (C3_merge_override_law constructorBase { temperature := some (7/10) }).1.2 rfl⟩

/-- C7: `setPreamble` with the same text is idempotent: the second call
changes nothing, because it removes exactly the system message the first
call inserted and re-inserts an identical one at the front. -/
theorem C7_setPreamble_idempotent (st : BotState) (text : String) :
    setPreamble (setPreamble st text) text = setPreamble st text := by
  simp [setPreamble, List.filter_filter]

set_option maxRecDepth 8192

theorem matchesAt_append_self (n s : List Char) : matchesAt n (n ++ s) = true := by
  induction n with
  | nil => simp [matchesAt]
  | cons a as ih => simp [matchesAt, ih]

theorem findFirst_of_matches (needle l : List Char)
    (h : matchesAt needle l = true) :
    findFirst needle l = some 0 := by
  cases l with
  | nil => simp [findFirst, h]
  | cons c cs => simp [findFirst, h]

theorem findFirst_of_not_occurs (needle l : List Char)
    (h : occursIn needle l = false) :
    findFirst needle l = none := by
  induction l with
  | nil =>
    simp [occursIn] at h
    simp [findFirst, h]
  | cons c cs ih =>
    simp [occursIn] at h
    obtain ⟨h1, h2⟩ := h
    simp [findFirst, h1, ih h2]

theorem jsReplaceFirst_of_not_occurs (needle repl l : List Char)
    (h : occursIn needle l = false) :
    jsReplaceFirst needle repl l = l := by
  simp [jsReplaceFirst, findFirst_of_not_occurs needle l h]

theorem findFirst_first_occurrence (needle pre suf : List Char)
    (h : ∀ i < pre.length,
      matchesAt needle ((pre ++ needle ++ suf).drop i) = false) :
    findFirst needle (pre ++ needle ++ suf) = some pre.length := by
  induction pre with
  | nil =>
    simp only [List.nil_append]
    rw [findFirst_of_matches needle _ (matchesAt_append_self needle suf)]
    simp
  | cons c pre' ih =>
    have h0 : matchesAt needle (c :: (pre' ++ (needle ++ suf))) = false := by
      simpa using h 0 (by simp)
    have ih' : findFirst needle (pre' ++ (needle ++ suf)) = some pre'.length := by
      have hh : ∀ i < pre'.length,
          matchesAt needle ((pre' ++ needle ++ suf).drop i) = false := by
        intro i hi
        simpa using h (i + 1) (by simp; omega)
      simpa using ih hh
    simp [findFirst, h0, ih']

theorem getSubstitution_no_dollar (matched before after repl : List Char)
    (h : ∀ c ∈ repl, c ≠ dollarChar) :
    getSubstitution matched before after repl = repl := by
  induction repl with
  | nil => rfl
  | cons c rest ih =>
    have hc : c ≠ dollarChar := h c (List.mem_cons_self c rest)
    have ih' := ih (fun x hx => h x (List.mem_cons_of_mem c hx))
    rw [getSubstitution.eq_def]
    simp [hc, ih']

theorem jsReplaceFirst_first_occurrence (needle repl pre suf : List Char)
    (h : ∀ i < pre.length,
      matchesAt needle ((pre ++ needle ++ suf).drop i) = false) :
    jsReplaceFirst needle repl (pre ++ needle ++ suf) =
      pre ++ getSubstitution needle pre suf repl ++ suf := by
  have hf := findFirst_first_occurrence needle pre suf h
  have htake : (pre ++ needle ++ suf).take pre.length = pre := by
    rw [List.append_assoc]
    exact List.take_left pre (needle ++ suf)
  have hdrop : (pre ++ needle ++ suf).drop (pre.length + needle.length) = suf := by
    rw [← List.length_append pre needle]
    exact List.drop_left (pre ++ needle) suf
  unfold jsReplaceFirst
  rw [hf]
  dsimp only
  rw [htake, hdrop]

/-- C8 counterexample: substitution is not verbatim for every user
input — `applyTemplate` is JavaScript `replace`, which rewrites
`$`-patterns in the replacement, so input `"$&"` re-inserts the marker
(instead of yielding the verbatim `"Q: $&!"`) and input `"$$"` inserts a
single dollar sign. -/
theorem C8_counterexample :
    applyTemplate
        { name := "t", description := "d", template := "Q: {userInput}!" } "$&" =
      "Q: {userInput}!" ∧
    applyTemplate
        { name := "t", description := "d", template := "Q: {userInput}!" } "$&" ≠
      "Q: $&!" ∧
    applyTemplate
        { name := "t", description := "d", template := "Q: {userInput}!" } "$$" =
      "Q: $!" :=
  ⟨by decide, by decide, by decide⟩

/-- C8 (amended): `applyTemplate` replaces the first (single)
`{userInput}` marker occurrence by the user input rewritten through the
JavaScript replacement-pattern rules (`GetSubstitution`); for user
input containing no dollar character the substitution is verbatim;
when the marker is absent the body is returned unchanged with the input
not inserted; and rendering the registered "code" template on
"sort an array" contains that literal substring and no marker token. -/
theorem C8_render_substitution :
    (∀ (t : PromptTemplate) (input : String),
        occursIn markerList t.template.toList = false →
        applyTemplate t input = t.template) ∧
    (∀ (name desc : String) (pre suf : List Char) (input : String),
        (∀ i < pre.length,
          matchesAt markerList ((pre ++ markerList ++ suf).drop i) = false) →
        applyTemplate
            { name := name, description := desc,
              template := String.mk (pre ++ markerList ++ suf) } input =
          String.mk (pre ++ getSubstitution markerList pre suf input.toList ++ suf)) ∧
    (∀ (name desc : String) (pre suf : List Char) (input : String),
        (∀ i < pre.length,
          matchesAt markerList ((pre ++ markerList ++ suf).drop i) = false) →
        (∀ c ∈ input.toList, c ≠ dollarChar) →
        applyTemplate
            { name := name, description := desc,
              template := String.mk (pre ++ markerList ++ suf) } input =
          String.mk (pre ++ input.toList ++ suf)) ∧
    (∃ t, getTemplate "code" = some t ∧
        occursIn "sort an array".toList
          (applyTemplate t "sort an array").toList = true ∧
        occursIn markerList (applyTemplate t "sort an array").toList = false) := by
  refine ⟨?_, ?_, ?_, ?_⟩
  · intro t input h
    unfold applyTemplate
    rw [jsReplaceFirst_of_not_occurs _ _ _ h]
    rfl
  · intro name desc pre suf input h
    unfold applyTemplate
    show String.mk (jsReplaceFirst markerList input.toList
      (pre ++ markerList ++ suf)) = _
    rw [jsReplaceFirst_first_occurrence _ _ _ _ h]
  · intro name desc pre suf input h hd
    unfold applyTemplate
    show String.mk (jsReplaceFirst markerList input.toList
      (pre ++ markerList ++ suf)) = _
    rw [jsReplaceFirst_first_occurrence _ _ _ _ h,
      getSubstitution_no_dollar _ _ _ _ hd]
  · exact ⟨_, rfl, by decide, by decide⟩

/-- Witness for C8 (amended) at concrete inputs: a marker-free body
passes through unchanged, and a body `"A: {userInput}!"` with the
dollar-free input "hi" renders to `"A: hi!"`. -/
theorem C8_render_substitution_witness :
    applyTemplate
        { name := "t", description := "d", template := "no marker here" } "X" =
      "no marker here" ∧
    applyTemplate
        { name := "t", description := "d",
          template := String.mk ("A: ".toList ++ markerList ++ "!".toList) } "hi" =
      String.mk ("A: ".toList ++ "hi".toList ++ "!".toList) :=
  ⟨C8_render_substitution.1 _ "X" (by decide),
    C8_render_substitution.2.2.1 "t" "d" "A: ".toList "!".toList "hi"
      (by decide) (by decide)⟩

theorem streamConcat_go (chunks : List StreamChunk) (acc : String) :
    chunks.foldl
        (fun a c =>
          if c.type == "content-delta" then a ++ c.deltaText.getD "" else a)
        acc =
      acc ++ joinAll (deltaTexts chunks) := by
  induction chunks generalizing acc with
  | nil => simp [deltaTexts, joinAll]
  | cons c cs ih =>
    rw [List.foldl_cons, ih]
    cases hc : (c.type == "content-delta") with
    | true => simp [hc, deltaTexts, joinAll, String.append_assoc]
    | false => simp [hc, deltaTexts, joinAll]

theorem streamConcat_eq_joinAll (chunks : List StreamChunk) :
    streamConcat chunks = joinAll (deltaTexts chunks) := by
  have := streamConcat_go chunks ""
  simpa [streamConcat] using this

/-- C2: when the external dispatch throws, `sendMessage` re-signals the
one generic "request failed" error, the user message stays at the end of
the history, and no assistant message is appended. -/
theorem C2_dispatch_failure (client : CohereClient) (st : BotState) (msg : String)
    (hreg : client.chatText = Except.error ())
    (hstr : client.chatStreamChunks = Except.error ()) :
    (sendMessage client st msg).1 = Except.error apiFailureMessage ∧
    (sendMessage client st msg).2.conversationHistory =
      st.conversationHistory ++ [{ role := Role.user, content := msg }] := by
  cases hb : (st.config.enableStreaming.getD false) with
  | true => simp [sendMessage, pushMessage, hb, sendStreamingMessage, hstr]
  | false => simp [sendMessage, pushMessage, hb, sendRegularMessage, hreg]

/-- Witness for C2: a failing client on a fresh default session. -/
theorem C2_dispatch_failure_witness :
    (sendMessage clientFail (mkChatbot {}) "Hi").1 = Except.error apiFailureMessage ∧
    (sendMessage clientFail (mkChatbot {}) "Hi").2.conversationHistory =
      (mkChatbot {}).conversationHistory ++ [{ role := Role.user, content := "Hi" }] :=
  C2_dispatch_failure clientFail (mkChatbot {}) "Hi" rfl rfl

/-- C9: on the streaming path the committed assistant message content is
exactly the concatenation of the `content-delta` fragment texts in
arrival order with no separator, and it is both returned and appended
after the user message. -/
theorem C9_streaming_concat (client : CohereClient) (st : BotState) (msg : String)
    (chunks : List StreamChunk)
    (hs : st.config.enableStreaming = some true)
    (hok : client.chatStreamChunks = Except.ok chunks) :
    (sendMessage client st msg).1 = Except.ok (joinAll (deltaTexts chunks)) ∧
    (sendMessage client st msg).2.conversationHistory =
      st.conversationHistory ++
        [{ role := Role.user, content := msg },
         { role := Role.assistant, content := joinAll (deltaTexts chunks) }] := by
  simp [sendMessage, pushMessage, hs, sendStreamingMessage, hok,
    streamConcat_eq_joinAll]

/-- Witness for C9, scenario D: fragments ["Hel", "lo"] commit "Hello". -/
theorem C9_streaming_concat_witness :
    joinAll (deltaTexts chunksHelLo) = "Hello" ∧
    (sendMessage clientHelLo stStream "Hi").1 =
      Except.ok (joinAll (deltaTexts chunksHelLo)) ∧
    (sendMessage clientHelLo stStream "Hi").2.conversationHistory =
      stStream.conversationHistory ++
        [{ role := Role.user, content := "Hi" },
         { role := Role.assistant, content := joinAll (deltaTexts chunksHelLo) }] :=
  ⟨by decide,
    (C9_streaming_concat clientHelLo stStream "Hi" chunksHelLo rfl rfl).1,
    (C9_streaming_concat clientHelLo stStream "Hi" chunksHelLo rfl rfl).2⟩

/-- C4 counterexample: the session `stBogus` (active template name
"bogus" injected through `updateConfig`) has an active template name
that is not in the registry, yet `sendTemplatedMessage` is
observationally identical to a plain untemplated `sendMessage` and
succeeds — no template-not-found condition is reported to the caller. -/
theorem C4_counterexample :
    stBogus.config.activeTemplate = some "bogus" ∧
    getTemplate "bogus" = none ∧
    sendTemplatedMessage clientOk stBogus "hi" = sendMessage clientOk stBogus "hi" ∧
    (sendTemplatedMessage clientOk stBogus "hi").1 = Except.ok "resp" :=
  ⟨rfl, rfl, rfl, rfl⟩

/-- C4 (amended): for every session state, `setTemplate` on a name not
in the registry returns false and leaves the state — hence the
active-template field — unchanged; and whenever a turn's active
template name is not in the registry, `sendTemplatedMessage` silently
falls back to sending the raw user input, behaving exactly like
`sendMessage`, reporting nothing. -/
theorem C4_template_not_found (name : String) (st : BotState)
    (client : CohereClient) (input : String)
    (h1 : getTemplate name = none) :
    setTemplate st name = (false, st) ∧
    (st.config.activeTemplate = some name →
      sendTemplatedMessage client st input = sendMessage client st input) := by
  constructor
  · simp [setTemplate, h1]
  · intro h2
    simp [sendTemplatedMessage, h2, h1]

/-- Witness for C4 (amended) at the name "bogus": on a fresh default
session the activation is refused with the state unchanged, and on
`stBogus` the silent fallback fires. -/
theorem C4_template_not_found_witness :
    setTemplate (mkChatbot {}) "bogus" = (false, mkChatbot {}) ∧
    setTemplate stBogus "bogus" = (false, stBogus) ∧
    sendTemplatedMessage clientOk stBogus "x" = sendMessage clientOk stBogus "x" :=
  ⟨(C4_template_not_found "bogus" (mkChatbot {}) clientOk "x" rfl).1,
    (C4_template_not_found "bogus" stBogus clientOk "x" rfl).1,
    (C4_template_not_found "bogus" stBogus clientOk "x" rfl).2 rfl⟩

theorem sysInv_append (h l : List ChatMessage) (hh : sysInv h)
    (hl : ∀ m ∈ l, m.role ≠ Role.system) : sysInv (h ++ l) := by
  cases h with
  | nil =>
    intro m hm
    exact hl m (List.mem_of_mem_drop hm)
  | cons a t =>
    intro m hm
    simp only [List.cons_append, List.drop_succ_cons, List.drop_zero] at hm
    rcases List.mem_append.mp hm with h1 | h2
    · exact hh m h1
    · exact hl m h2

theorem sysInv_pushMessage (st : BotState) (m : ChatMessage)
    (hm : m.role ≠ Role.system) (h : sysInv st.conversationHistory) :
    sysInv (pushMessage st m).conversationHistory := by
  refine sysInv_append _ _ h ?_
  intro x hx
  rw [List.mem_singleton.mp hx]
  exact hm

theorem sysInv_sendMessage (client : CohereClient) (st : BotState) (msg : String)
    (h : sysInv st.conversationHistory) :
    sysInv (sendMessage client st msg).2.conversationHistory := by
  have h1 : sysInv (pushMessage st { role := Role.user, content := msg }).conversationHistory :=
    sysInv_pushMessage st _ (by simp) h
  unfold sendMessage
  cases hb : (st.config.enableStreaming.getD false) with
  | true =>
    cases hc : client.chatStreamChunks with
    | error e => simpa [pushMessage, hb, hc, sendStreamingMessage] using h1
    | ok chunks =>
      simp only [pushMessage, hb, hc, sendStreamingMessage]
      exact sysInv_pushMessage _ _ (by simp) h1
  | false =>
    cases hc : client.chatText with
    | error e => simpa [pushMessage, hb, hc, sendRegularMessage] using h1
    | ok respText =>
      simp only [pushMessage, hb, hc, sendRegularMessage]
      exact sysInv_pushMessage _ _ (by simp) h1

theorem sysInv_sendTemplated (client : CohereClient) (st : BotState) (input : String)
    (h : sysInv st.conversationHistory) :
    sysInv (sendTemplatedMessage client st input).2.conversationHistory := by
  unfold sendTemplatedMessage
  exact sysInv_sendMessage client st _ h

theorem sysInv_setPreamble (st : BotState) (text : String) :
    sysInv (setPreamble st text).conversationHistory := by
  intro m hm
  simp only [setPreamble, List.drop_succ_cons, List.drop_zero] at hm
  have h2 := (List.mem_filter.mp hm).2
  simpa using h2

theorem sysInv_clearHistory (st : BotState) :
    sysInv (clearHistory st).conversationHistory := by
  intro m hm
  cases hp : st.config.preamble <;> simp [clearHistory, hp] at hm

theorem sysInv_mkChatbot (config : ChatbotConfig) :
    sysInv (mkChatbot config).conversationHistory := by
  intro m hm
  unfold mkChatbot at hm
  cases hp : (mergeConfig constructorBase config).preamble <;> simp [hp] at hm

theorem setTemplate_history (st : BotState) (name : String) :
    (setTemplate st name).2.conversationHistory = st.conversationHistory := by
  cases hg : getTemplate name <;> simp [setTemplate, hg]

/-- C5: in every state reachable through the public operations, the
history holds at most one system message, and any system message sits
at index 0. -/
theorem C5_at_most_one_system (st : BotState) (h : Reachable st) :
    st.conversationHistory.countP (fun m => m.role == Role.system) ≤ 1 ∧
    (∀ i, (hi : i < st.conversationHistory.length) →
      (st.conversationHistory.get ⟨i, hi⟩).role = Role.system → i = 0) := by
  have inv : sysInv st.conversationHistory := by
    induction h with
    | init config => exact sysInv_mkChatbot config
    | send client msg _ ih => exact sysInv_sendMessage client _ msg ih
    | sendTemplated client input _ ih => exact sysInv_sendTemplated client _ input ih
    | setPre text _ _ => exact sysInv_setPreamble _ text
    | clear _ _ => exact sysInv_clearHistory _
    | update cfg _ ih => exact ih
    | setTmpl name _ ih => rw [setTemplate_history]; exact ih
    | clearTmpl _ ih => exact ih
  rcases hl : st.conversationHistory with _ | ⟨a, t⟩
  · simp
  · have ht : ∀ m ∈ t, m.role ≠ Role.system := by
      intro m hm
      have hd : m ∈ st.conversationHistory.drop 1 := by rw [hl]; exact hm
      exact inv m hd
    constructor
    · have hz : t.countP (fun m => m.role == Role.system) = 0 := by
        rw [List.countP_eq_zero]
        intro m hm
        simpa using ht m hm
      simp [List.countP_cons, hz]
      split <;> simp
    · intro i hi hrole
      cases i with
      | zero => rfl
      | succ j =>
        exfalso
        have hj : j < t.length := by simpa using hi
        exact ht (t.get ⟨j, hj⟩) (List.get_mem t j hj) hrole

/-- Witness for C5: the scenario-A initial state with a preamble. -/
theorem C5_at_most_one_system_witness :
    ((mkChatbot { preamble := some "You are terse." }).conversationHistory.countP
      (fun m => m.role == Role.system) ≤ 1) ∧
    (∀ i, (hi : i < (mkChatbot { preamble := some "You are terse." }).conversationHistory.length) →
      ((mkChatbot { preamble := some "You are terse." }).conversationHistory.get
        ⟨i, hi⟩).role = Role.system → i = 0) :=
  C5_at_most_one_system _ (Reachable.init _)

/-- C6: for every session state the outbound payload built by
`formatMessagesForAPI` contains no system-role entry, is an ordered
sublist of the projected history (relative order preserved), and
consists of exactly the non-system messages of the history in order. -/
theorem C6_outbound_no_system (st : BotState) :
    (∀ e ∈ formatMessagesForAPI st, e.role ≠ Role.system) ∧
    ((formatMessagesForAPI st).map (fun e => (e.role, e.content))).Sublist
      (st.conversationHistory.map (fun m => (m.role, m.content))) ∧
    (formatMessagesForAPI st).map (fun e => (e.role, e.content)) =
      (st.conversationHistory.filter (fun m => m.role != Role.system)).map
        (fun m => (m.role, m.content)) := by
  refine ⟨?_, ?_, ?_⟩
  · intro e he
    simp only [formatMessagesForAPI, List.mem_map] at he
    obtain ⟨m, hm, rfl⟩ := he
    have h2 := (List.mem_filter.mp hm).2
    simpa using h2
  · have h1 := List.filter_sublist (p := fun m => m.role != Role.system)
      (l := st.conversationHistory)
    have h2 := h1.map (fun m : ChatMessage => (m.role, m.content))
    simpa [formatMessagesForAPI, List.map_map, Function.comp] using h2
  · simp [formatMessagesForAPI, List.map_map, Function.comp]
